import Mathlib

/-!
# Verification of the MMSeqs2 runner (AF2_GPCR_Kinase/scripts/mmseqs2.py)

A shallow embedding of the template-selection, template-download, job-lifecycle,
sequence-sanitizing and sidecar-persistence logic of `MMSeqs2Runner`, together
with theorems settling the specification claims about them.

Conventions of the embedding:
* Python strings are Lean `String`s; where character-level reasoning is needed
  (the sanitizer and the sidecar file format) we work on `List Char`, the data
  underlying a `String`.
* Network calls are modelled as oracle functions supplied as parameters: the
  GPCRdb activation-state service, the KLIFS conformation service, and the
  MMSeqs2 submit/status endpoints (the latter as streams indexed by call count).
* The numeric `salt_bridge_17_24` distance is modelled as a rational number.
* Exceptions (`RuntimeError`, `KeyError`) are modelled with `Except`.
-/

namespace MMSeqs2

/-! ## Template criteria (the `templates` argument of `process_templates`)

In the Python source, `templates : List[str]` in fact holds either plain
strings (an activation-state name, literal PDB+chain codes, exclusion codes)
or a 3-tuple `(dfg, ac_helix, salt_bridge)`.  We model each element as a sum. -/

inductive Crit where
  | str (s : String)
  | tup (dfg ac_helix salt_bridge : String)
deriving DecidableEq

/-- Python `str.upper()` restricted to its ASCII behavior (per-character
upper-casing), which is all the source relies on for PDB codes. -/
def pyUpper (s : String) : String :=
  String.mk (s.toList.map Char.toUpper)

/-- `len(templates[0])`: length of a string, 3 for the conformation tuple. -/
def critLen : Crit → Nat
  | .str s => s.length
  | .tup _ _ _ => 3

/-- `templates[0][i]`: indexing a Python string yields a one-character string;
indexing the tuple yields its component. -/
def critIdx : Crit → Nat → String
  | .str s, i => String.mk [s.toList.getD i ' ']
  | .tup d _ _, 0 => d
  | .tup _ a _, 1 => a
  | .tup _ _ sb, 2 => sb
  | .tup _ _ _, _ => ""

/-- The string carried by a criteria element (used as `activation_state`). -/
def critString : Crit → String
  | .str s => s
  | .tup _ _ _ => ""

/-- Line 277: the recognized activation states. -/
def activationStates : List String :=
  ["Active", "Inactive", "Intermediate", "G protein", "Arrestin"]

/-- `templates[0] in ["Active", ...]`: a tuple is never equal to a string in
Python, so only string elements can match. -/
def isActivationCrit : Crit → Bool
  | .str s => activationStates.contains s
  | .tup _ _ _ => false

/-- Line 266: `[t.upper() for t in templates if isinstance(t, str)]`. -/
def templatesUpper (templates : List Crit) : List String :=
  templates.filterMap (fun t => match t with
    | .str s => some (pyUpper s)
    | .tup _ _ _ => none)

/-- Python `x in templates` for a string `x`: only string elements compare
equal to a string. -/
def rawStrMem (templates : List Crit) (x : String) : Bool :=
  templates.any (fun t => match t with
    | .str s => s == x
    | .tup _ _ _ => false)

/-- Line 272-275: `pdb.split("_")[0].upper()` — the PDB id of a row's target
code, chain suffix dropped, upper-cased.  `split("_")[0]` is the prefix of the
string before the first underscore. -/
def normId (pdb : String) : String :=
  pyUpper (String.mk (pdb.toList.takeWhile (fun c => c ≠ '_')))

/-! ## External service responses -/

/-- Response of `GET http://gpcrdb.org/services/structure/{PDBID}` after
`.json()`: either not a JSON object (`type(rj) is dict` fails), or an object
carrying `state` and optionally `signalling_protein.type`. -/
inductive GpcrdbResp where
  | nonDict
  | dict (state : String) (signalling : Option String)

/-- Combined response of the two KLIFS queries (lines 307-317): either the
first response's head is the not-found sentinel `400`, or the follow-up
conformation record with `DFG`, `ac_helix` and `salt_bridge_17_24`. -/
inductive KlifsResp where
  | notFound
  | found (dfg ac_helix : String) (salt_bridge_17_24 : ℚ)

/-! ## Criteria validation (lines 291-306) -/

/-- Lines 291-296: validate the DFG field; the accepted value is the field
itself. -/
def checkDfg (v : String) : Except String String :=
  if v ∈ (["in", "out", "out-like"] : List String) then Except.ok v
  else if v = "all" then Except.ok "all"
  else Except.error "DFG value invalid"

/-- Lines 297-302: validate the αC-helix field. -/
def checkAcHelix (v : String) : Except String String :=
  if v ∈ (["in", "out"] : List String) then Except.ok v
  else if v = "all" then Except.ok "all"
  else Except.error "ac_helix value invalid"

/-- Lines 303-306: validate the salt-bridge field. -/
def checkSaltBridge (v : String) : Except String String :=
  if v ∈ (["yes", "no", "all"] : List String) then Except.ok v
  else Except.error "salt_bridge value invalid"

/-- Lines 322-352: the eight-way `if`/`elif` chain deciding acceptance of a
row against the conformation criteria, given the observed DFG / αC-helix
values and the derived salt-bridge classification `ref_sb`. -/
def conformationAccept (dfg ac_helix salt_bridge obsDfg obsAc ref_sb : String) : Bool :=
  if dfg ≠ "all" ∧ ac_helix ≠ "all" ∧ salt_bridge ≠ "all" then
    decide (obsDfg = dfg ∧ obsAc = ac_helix ∧ salt_bridge = ref_sb)
  else if dfg ≠ "all" ∧ ac_helix ≠ "all" ∧ salt_bridge = "all" then
    decide (obsDfg = dfg ∧ obsAc = ac_helix)
  else if dfg ≠ "all" ∧ ac_helix = "all" ∧ salt_bridge ≠ "all" then
    decide (obsDfg = dfg ∧ salt_bridge = ref_sb)
  else if dfg ≠ "all" ∧ ac_helix = "all" ∧ salt_bridge = "all" then
    decide (obsDfg = dfg)
  else if dfg = "all" ∧ ac_helix ≠ "all" ∧ salt_bridge ≠ "all" then
    decide (obsAc = ac_helix ∧ salt_bridge = ref_sb)
  else if dfg = "all" ∧ ac_helix ≠ "all" ∧ salt_bridge = "all" then
    decide (obsAc = ac_helix)
  else if dfg = "all" ∧ ac_helix = "all" ∧ salt_bridge ≠ "all" then
    decide (salt_bridge = ref_sb)
  else if dfg = "all" ∧ ac_helix = "all" ∧ salt_bridge = "all" then
    true
  else
    false

/-- Lines 277-288: the activation-state branch body, applied to the GPCRdb
response.  `st` carries `(pdbs, check_duplicates)`. -/
def activationBranch (activation : String) (resp : GpcrdbResp)
    (st : List String × List String) (pdb pdbid : String) :
    List String × List String :=
  match resp with
  | .nonDict => st
  | .dict state signalling =>
    if state = activation then (st.1 ++ [pdb], st.2 ++ [pdbid])
    else
      match signalling with
      | some ty => if ty = activation then (st.1 ++ [pdb], st.2 ++ [pdbid]) else st
      | none => st

/-- Line 318: the 4.5 Å cutoff of the salt-bridge classification, as the
exact rational 9/2 (see `saltBridgeThreshold_eq`). -/
def saltBridgeThreshold : ℚ := mkRat 9 2

/-- Lines 307-352: the conformation branch body after validation, applied to
the KLIFS response. -/
def conformationBranch (dfg ac_helix salt_bridge : String) (resp : KlifsResp)
    (st : List String × List String) (pdb pdbid : String) :
    List String × List String :=
  match resp with
  | .notFound => st
  | .found obsDfg obsAc dist =>
    let ref_sb := if 0 < dist ∧ dist ≤ saltBridgeThreshold then "yes" else "no"
    if conformationAccept dfg ac_helix salt_bridge obsDfg obsAc ref_sb = true then
      (st.1 ++ [pdb], st.2 ++ [pdbid])
    else st

/-- Lines 290-356: the `if len(templates[0]) == 3 ... elif pdb in templates`
chain of the row loop, run on the state `st1` left by the activation branch. -/
def stepConf (templates : List Crit) (t0 : Crit) (klifs : String → KlifsResp)
    (st1 : List String × List String) (pdb pdbid : String) :
    Except String (List String × List String) :=
  if critLen t0 = 3 ∧ pdbid ∉ st1.2 ∧ rawStrMem templates pdbid = false then
    match checkDfg (critIdx t0 0) with
    | Except.error e => Except.error e
    | Except.ok dfg =>
      match checkAcHelix (critIdx t0 1) with
      | Except.error e => Except.error e
      | Except.ok ac =>
        match checkSaltBridge (critIdx t0 2) with
        | Except.error e => Except.error e
        | Except.ok sb =>
          Except.ok (conformationBranch dfg ac sb (klifs pdbid) st1 pdb pdbid)
  else if rawStrMem templates pdb = true then
    Except.ok (st1.1 ++ [pdb], st1.2)
  else
    Except.ok st1

/-- Lines 269-356: the body of the per-row loop of `process_templates`.
`st = (pdbs, check_duplicates)`; a raised `RuntimeError` is `Except.error`. -/
def step (templates : List Crit) (gpcrdb : String → GpcrdbResp)
    (klifs : String → KlifsResp) (st : List String × List String)
    (pdb : String) : Except String (List String × List String) :=
  let pdbid := normId pdb
  match templates with
  | [] => Except.ok st
  | t0 :: _ =>
    let st1 :=
      if isActivationCrit t0 = true ∧ pdbid ∉ st.2 ∧ pdbid ∉ templatesUpper templates then
        activationBranch (critString t0) (gpcrdb pdbid) st pdb pdbid
      else st
    stepConf templates t0 klifs st1 pdb pdbid

/-- The row loop of `process_templates`, threading `(pdbs, check_duplicates)`
through the table rows (each row contributes its target code `sl[1]`). -/
def processRows (templates : List Crit) (gpcrdb : String → GpcrdbResp)
    (klifs : String → KlifsResp) :
    List String → List String × List String →
    Except String (List String × List String)
  | [], st => Except.ok st
  | pdb :: rest, st =>
    match step templates gpcrdb klifs st pdb with
    | Except.error e => Except.error e
    | Except.ok st2 => processRows templates gpcrdb klifs rest st2

/-- Lines 241-363: `process_templates`, restricted to its selection logic —
the candidate list `pdbs` and the dedup list `check_duplicates` produced from
the result table (the list of target codes of `pdb70.m8`). -/
def process_templates (templates : List Crit) (gpcrdb : String → GpcrdbResp)
    (klifs : String → KlifsResp) (table : List String) :
    Except String (List String × List String) :=
  processRows templates gpcrdb klifs table ([], [])

/-! ## `download_templates` (lines 365-392)

The function receives the candidate list `pdbs` by reference.  State visible
to the caller or the filesystem is returned explicitly:
* `ret` — the returned string (`""` or the bundle path);
* `callerPdbs` — the caller's list after the call (`random.shuffle(pdbs)`
  mutates it in place; the later `pdbs = ",".join(...)` only rebinds a local);
* `dirExistsAfter` — whether the `templates_101` bundle directory exists when
  the call returns (it is removed first if present, recreated only on the
  non-empty path);
* `requested` — the codes appearing in the single `wget` bundle request
  (`pdbs[: self.n_templates]` after the optional shuffle);
* `warnedEmpty` — whether the "No templates found." warning was emitted.

The shuffle primitive is an oracle `shuf`; a faithful instantiation is any
function producing a permutation of its input. -/

structure FetchOut where
  ret : String
  callerPdbs : List String
  dirExistsAfter : Bool
  requested : List String
  warnedEmpty : Bool
deriving DecidableEq

def download_templates (shuf : List String → List String)
    (shuffling_templates : Bool) (n_templates : Nat) (job : String)
    (_dirExists : Bool) (pdbs : List String) : FetchOut :=
  -- path = f"{ self.job }_env/templates_101"; if isdir(path): rm -r path
  -- (dirExists records whether it was there; either way it is gone now)
  if pdbs.length = 0 then
    ⟨"", pdbs, false, [], true⟩
  else
    -- os.mkdir(path); optional in-place shuffle; truncation to n_templates
    let pdbs1 := if pdbs.length > 1 ∧ shuffling_templates = true then shuf pdbs else pdbs
    ⟨job ++ "_env/templates_101", pdbs1, true, pdbs1.take n_templates, false⟩

/-! ## The job lifecycle: `_submit`, `_status`, `_search_mmseqs2` (lines 125-239)

A server response is modelled after parsing: `none` when `res.json()` raises
`ValueError` (body not JSON), otherwise the parsed object, of which the code
consumes the `status` field and (sometimes) the `id` field.  `id := none`
models a JSON object carrying no `"id"` key — accessing it raises `KeyError`. -/

structure ApiOut where
  status : String
  id : Option String
deriving DecidableEq

/-- Lines 143-149 of `_submit`: on a parse failure the result is
`{"status": "UNKNOWN"}` (carrying no id). -/
def submitModel (resp : Option ApiOut) : ApiOut :=
  match resp with
  | some out => out
  | none => ⟨"UNKNOWN", none⟩

/-- Lines 167-173 of `_status`: same parse-failure handling. -/
def statusModel (resp : Option ApiOut) : ApiOut :=
  match resp with
  | some out => out
  | none => ⟨"UNKNOWN", none⟩

/-- Network calls performed by `_search_mmseqs2`, in order. -/
inductive NetEvent where
  | submitPost
  | statusGet (id : String)
  | downloadGet (id : String)
deriving DecidableEq

/-- How a run of `_search_mmseqs2` can fail in the model: an uncaught Python
`KeyError` (missing `"id"` key), the explicit `RuntimeError` raised on a
terminal ERROR status, or exhaustion of the step budget (the Python loops are
unbounded; `fuelExhausted` only marks runs longer than the budget). -/
inductive SearchErr where
  | keyError
  | runtimeError
  | fuelExhausted
deriving DecidableEq

/-- Lines 216-219: `while out["status"] in ["UNKNOWN", "RATELIMIT"]:`
resubmit.  `submits k` is the (parsed) response to the k-th submit POST. -/
def resubmitLoop (submits : Nat → Option ApiOut) :
    Nat → Nat → ApiOut → List NetEvent →
    Except SearchErr (ApiOut × Nat × List NetEvent)
  | 0, k, out, evs =>
    if out.status ∈ (["UNKNOWN", "RATELIMIT"] : List String) then
      Except.error SearchErr.fuelExhausted
    else Except.ok (out, k, evs)
  | Nat.succ fuel, k, out, evs =>
    if out.status ∈ (["UNKNOWN", "RATELIMIT"] : List String) then
      resubmitLoop submits fuel (k + 1) (submitModel (submits k))
        (evs ++ [NetEvent.submitPost])
    else Except.ok (out, k, evs)

/-- Lines 223-225: `while out["status"] in ["UNKNOWN", "RUNNING", "PENDING"]:`
poll `self._status(out["id"])`.  When the loop body runs on an `out` that has
no id (the parse-failure result of `_status`), Python raises `KeyError`. -/
def pollLoop (statuses : Nat → String → Option ApiOut) :
    Nat → Nat → ApiOut → List NetEvent →
    Except SearchErr (ApiOut × List NetEvent)
  | 0, _, out, evs =>
    if out.status ∈ (["UNKNOWN", "RUNNING", "PENDING"] : List String) then
      Except.error SearchErr.fuelExhausted
    else Except.ok (out, evs)
  | Nat.succ fuel, k, out, evs =>
    if out.status ∈ (["UNKNOWN", "RUNNING", "PENDING"] : List String) then
      match out.id with
      | none => Except.error SearchErr.keyError
      | some i =>
        pollLoop statuses fuel (k + 1) (statusModel (statuses k i))
          (evs ++ [NetEvent.statusGet i])
    else Except.ok (out, evs)

/-- Lines 195-239: `_search_mmseqs2`.  Returns the ordered list of network
calls performed.  `tarExists` is `os.path.isfile(self.tarfile)` at entry. -/
def search_mmseqs2 (fuel : Nat) (tarExists : Bool)
    (submits : Nat → Option ApiOut) (statuses : Nat → String → Option ApiOut) :
    Except SearchErr (List NetEvent) :=
  if tarExists then Except.ok []
  else
    match resubmitLoop submits fuel 1 (submitModel (submits 0)) [NetEvent.submitPost] with
    | Except.error e => Except.error e
    | Except.ok (out, _, evs) =>
      -- line 221: logging.debug(f"ID: ...") evaluates out["id"]
      match out.id with
      | none => Except.error SearchErr.keyError
      | some _ =>
        match pollLoop statuses fuel 0 out evs with
        | Except.error e => Except.error e
        | Except.ok (out2, evs2) =>
          if out2.status = "COMPLETE" then
            match out2.id with
            | none => Except.error SearchErr.keyError
            | some i => Except.ok (evs2 ++ [NetEvent.downloadGet i])
          else if out2.status = "ERROR" then Except.error SearchErr.runtimeError
          else Except.ok evs2

/-! ## `_cleanseq` (lines 83-102) -/

/-- The non-canonical residue letters removed by `_cleanseq`. -/
def bjouxz : List Char := ['B', 'J', 'O', 'U', 'X', 'Z']

/-- Lines 83-102: `_cleanseq`.  Returns the cleaned sequence and whether the
non-canonical-letter warning was emitted.  `re.sub(r"[BJOUXZ]", "", seq)` is
run only when some of those letters occur; `"".join(seq.split())` removes all
whitespace; `re.sub(r"[^A-Z]", "", ...)` keeps only the letters A-Z. -/
def cleanseq (seq : String) : String × Bool :=
  let warned := seq.toList.any (fun c => decide (c ∈ bjouxz))
  let s1 := if warned then seq.toList.filter (fun c => decide (c ∉ bjouxz)) else seq.toList
  let s2 := s1.filter (fun c => !c.isWhitespace)
  ⟨String.mk (s2.filter (fun c => decide ('A' ≤ c ∧ c ≤ 'Z'))), warned⟩

/-- Line 65: the constructor sanitizes `seq.upper()`, i.e. runs `_cleanseq`
on the upper-cased raw input. -/
def cleanseqUpper (seq : String) : String × Bool :=
  cleanseq (pyUpper seq)

/-! ## The sidecar candidate file (lines 358-361 and 462-467)

`process_templates` writes every candidate code followed by a comma;
`shuffle_templates` reads the file back with `split(",")` and pops the final
element when it is empty.  We model the file content at the character level
and Python `str.split(sep)` exactly (every separator occurrence splits,
empty pieces are kept). -/

def pySplitAux : List Char → List Char → List (List Char)
  | [], acc => [acc.reverse]
  | c :: cs, acc =>
    if c = ',' then acc.reverse :: pySplitAux cs []
    else pySplitAux cs (c :: acc)

/-- Python `s.split(",")`. -/
def pySplitComma (s : List Char) : List (List Char) :=
  pySplitAux s []

/-- Lines 358-361: `for pdb in pdbs: outfile.write(f"{ pdb },")`. -/
def sidecarWrite (pdbs : List (List Char)) : List Char :=
  pdbs.foldl (fun acc p => acc ++ p ++ [',']) []

/-- Lines 462-467: `pdbs = infile.read().split(",")`, then pop the last
element when it is the empty string. -/
def sidecarRead (s : List Char) : List (List Char) :=
  let ps := pySplitComma s
  if ps.getLast? = some [] then ps.dropLast else ps

/-! ## Helper lemmas -/

/-- The threshold constant is the 4.5 of line 318. -/
theorem saltBridgeThreshold_eq : saltBridgeThreshold = 4.5 := by
  norm_num [saltBridgeThreshold]

/-- The running invariant of the row loop: `check_duplicates` is exactly the
list of normalized ids of the accepted codes, and has no duplicates. -/
def stInv (st : List String × List String) : Prop :=
  st.2 = st.1.map normId ∧ st.2.Nodup

theorem nodup_append_singleton {α : Type} {l : List α} {x : α}
    (h : l.Nodup) (hx : x ∉ l) : (l ++ [x]).Nodup := by
  simp [List.nodup_append, h, hx]

theorem stInv_append {st : List String × List String} {pdb : String}
    (hinv : stInv st) (hdup : normId pdb ∉ st.2) :
    stInv (st.1 ++ [pdb], st.2 ++ [normId pdb]) := by
  obtain ⟨h1, h2⟩ := hinv
  refine ⟨?_, nodup_append_singleton h2 hdup⟩
  simp [h1]

theorem activationBranch_inv {a : String} {r : GpcrdbResp}
    {st : List String × List String} {pdb : String}
    (hinv : stInv st) (hdup : normId pdb ∉ st.2) :
    stInv (activationBranch a r st pdb (normId pdb)) := by
  unfold activationBranch
  rcases r with _ | ⟨state, sig⟩
  · exact hinv
  · by_cases hs : state = a
    · simpa [hs] using stInv_append hinv hdup
    · rcases sig with _ | ty
      · simpa [hs] using hinv
      · by_cases ht : ty = a
        · simpa [hs, ht] using stInv_append hinv hdup
        · simpa [hs, ht] using hinv

theorem conformationBranch_inv {dfg ac sb : String} {r : KlifsResp}
    {st : List String × List String} {pdb : String}
    (hinv : stInv st) (hdup : normId pdb ∉ st.2) :
    stInv (conformationBranch dfg ac sb r st pdb (normId pdb)) := by
  unfold conformationBranch
  rcases r with _ | ⟨o1, o2, dist⟩
  · exact hinv
  · by_cases hc : conformationAccept dfg ac sb o1 o2
        (if 0 < dist ∧ dist ≤ saltBridgeThreshold then "yes" else "no") = true
    · simpa [hc] using stInv_append hinv hdup
    · simpa [hc] using hinv

/-- The eight-way branch chain of lines 322-352 is the conjunction of the
non-wildcard criteria fields. -/
theorem conformationAccept_eq (d a s o1 o2 sb : String) :
    conformationAccept d a s o1 o2 sb =
      decide ((d = "all" ∨ o1 = d) ∧ (a = "all" ∨ o2 = a) ∧ (s = "all" ∨ s = sb)) := by
  unfold conformationAccept
  by_cases hd : d = "all" <;> by_cases ha : a = "all" <;> by_cases hs : s = "all" <;>
    simp [hd, ha, hs]

theorem checkDfg_valid {v : String}
    (h : v ∈ (["in", "out", "out-like", "all"] : List String)) :
    checkDfg v = Except.ok v := by
  fin_cases h <;> rfl

theorem checkAcHelix_valid {v : String}
    (h : v ∈ (["in", "out", "all"] : List String)) :
    checkAcHelix v = Except.ok v := by
  fin_cases h <;> rfl

theorem checkSaltBridge_valid {v : String}
    (h : v ∈ (["yes", "no", "all"] : List String)) :
    checkSaltBridge v = Except.ok v := by
  fin_cases h <;> rfl

theorem stepConf_inv {templates : List Crit} {t0 : Crit} {K : String → KlifsResp}
    {st1 : List String × List String} {pdb : String}
    (hlit : rawStrMem templates pdb = false) (hinv : stInv st1)
    {st2 : List String × List String}
    (h : stepConf templates t0 K st1 pdb (normId pdb) = Except.ok st2) :
    stInv st2 := by
  unfold stepConf at h
  by_cases hg : critLen t0 = 3 ∧ normId pdb ∉ st1.2 ∧
      rawStrMem templates (normId pdb) = false
  · rw [if_pos hg] at h
    cases hcd : checkDfg (critIdx t0 0) with
    | error e => rw [hcd] at h; simp at h
    | ok dfg =>
      rw [hcd] at h
      cases hca : checkAcHelix (critIdx t0 1) with
      | error e => rw [hca] at h; simp at h
      | ok ac =>
        rw [hca] at h
        cases hcs : checkSaltBridge (critIdx t0 2) with
        | error e => rw [hcs] at h; simp at h
        | ok sb =>
          rw [hcs] at h
          simp only [] at h
          injection h with h2
          subst h2
          exact conformationBranch_inv hinv hg.2.1
  · rw [if_neg hg, hlit] at h
    simp only [Bool.false_eq_true, if_false] at h
    injection h with h2
    subst h2
    exact hinv

theorem step_inv {templates : List Crit} {G : String → GpcrdbResp}
    {K : String → KlifsResp} {st : List String × List String} {pdb : String}
    (hlit : rawStrMem templates pdb = false) (hinv : stInv st)
    {st2 : List String × List String}
    (h : step templates G K st pdb = Except.ok st2) : stInv st2 := by
  cases templates with
  | nil =>
    simp only [step] at h
    injection h with h2
    subst h2
    exact hinv
  | cons t0 rest =>
    simp only [step] at h
    by_cases hg : isActivationCrit t0 = true ∧ normId pdb ∉ st.2 ∧
        normId pdb ∉ templatesUpper (t0 :: rest)
    · rw [if_pos hg] at h
      exact stepConf_inv hlit (activationBranch_inv hinv hg.2.1) h
    · rw [if_neg hg] at h
      exact stepConf_inv hlit hinv h

theorem processRows_inv {templates : List Crit} {G : String → GpcrdbResp}
    {K : String → KlifsResp} :
    ∀ {table : List String} {st st2 : List String × List String},
      (∀ pdb ∈ table, rawStrMem templates pdb = false) → stInv st →
      processRows templates G K table st = Except.ok st2 → stInv st2 := by
  intro table
  induction table with
  | nil =>
    intro st st2 _ hinv h
    simp only [processRows] at h
    injection h with h2
    subst h2
    exact hinv
  | cons pdb rest ih =>
    intro st st2 hlit hinv h
    simp only [processRows] at h
    cases hs : step templates G K st pdb with
    | error e => rw [hs] at h; simp at h
    | ok st1 =>
      rw [hs] at h
      exact ih (fun p hp => hlit p (List.mem_cons_of_mem _ hp))
        (step_inv (hlit pdb (List.mem_cons_self _ _)) hinv hs) h

theorem checkDfg_invalid {v : String}
    (h : v ∉ (["in", "out", "out-like", "all"] : List String)) :
    checkDfg v = Except.error "DFG value invalid" := by
  have h1 : v ∉ (["in", "out", "out-like"] : List String) := by
    intro hm
    exact h (by simp at hm ⊢; tauto)
  have h2 : v ≠ "all" := by
    intro he
    exact h (by simp [he])
  simp [checkDfg, h1, h2]

theorem checkAcHelix_invalid {v : String}
    (h : v ∉ (["in", "out", "all"] : List String)) :
    checkAcHelix v = Except.error "ac_helix value invalid" := by
  have h1 : v ∉ (["in", "out"] : List String) := by
    intro hm
    exact h (by simp at hm ⊢; tauto)
  have h2 : v ≠ "all" := by
    intro he
    exact h (by simp [he])
  simp [checkAcHelix, h1, h2]

theorem checkSaltBridge_invalid {v : String}
    (h : v ∉ (["yes", "no", "all"] : List String)) :
    checkSaltBridge v = Except.error "salt_bridge value invalid" := by
  simp [checkSaltBridge, h]

theorem stepConf_ok_of_len_ne {templates : List Crit} {t0 : Crit}
    {K : String → KlifsResp} {st1 : List String × List String}
    {pdb pdbid : String} (h3 : critLen t0 ≠ 3) :
    ∃ out, stepConf templates t0 K st1 pdb pdbid = Except.ok out := by
  unfold stepConf
  rw [if_neg (by tauto)]
  by_cases hl : rawStrMem templates pdb = true
  · rw [if_pos hl]
    exact ⟨_, rfl⟩
  · rw [if_neg hl]
    exact ⟨_, rfl⟩

theorem step_ok_of_len_ne {t0 : Crit} {rest : List Crit}
    {G : String → GpcrdbResp} {K : String → KlifsResp}
    {st : List String × List String} {pdb : String} (h3 : critLen t0 ≠ 3) :
    ∃ out, step (t0 :: rest) G K st pdb = Except.ok out := by
  simp only [step]
  exact stepConf_ok_of_len_ne h3

theorem processRows_ok_of_len_ne {t0 : Crit} {rest : List Crit}
    {G : String → GpcrdbResp} {K : String → KlifsResp} (h3 : critLen t0 ≠ 3) :
    ∀ (table : List String) (st : List String × List String),
      ∃ out, processRows (t0 :: rest) G K table st = Except.ok out := by
  intro table
  induction table with
  | nil =>
    intro st
    exact ⟨st, rfl⟩
  | cons pdb tl ih =>
    intro st
    simp only [processRows]
    obtain ⟨out1, hout1⟩ : ∃ out, step (t0 :: rest) G K st pdb = Except.ok out :=
      step_ok_of_len_ne h3
    rw [hout1]
    exact ih out1

/-! ## Dummy oracles for concrete runs -/

/-- GPCRdb oracle answering with a non-dict body everywhere. -/
def gpcrdbNone : String → GpcrdbResp := fun _ => GpcrdbResp.nonDict

/-- KLIFS oracle answering the not-found sentinel everywhere. -/
def klifsNone : String → KlifsResp := fun _ => KlifsResp.notFound

/-- KLIFS oracle answering DFG "in", αC-helix "in", distance 3 everywhere. -/
def klifsIn3 : String → KlifsResp := fun _ => KlifsResp.found "in" "in" 3

/-! ## Claim C1 -/

/-- C1 is false as stated: with a literal criteria list `["1ABC_A"]` and a
result table repeating that code, `process_templates` appends the code twice
(the `elif pdb in templates` path of line 354 performs no dedup), so the
candidate list holds the same case-folded, chain-stripped PDB id twice. -/
theorem C1_counterexample :
    process_templates [Crit.str "1ABC_A"] gpcrdbNone klifsNone
        ["1ABC_A", "1ABC_A"] = Except.ok (["1ABC_A", "1ABC_A"], []) ∧
      ¬ (((["1ABC_A", "1ABC_A"] : List String).map normId).Nodup) :=
  ⟨by rfl, by decide⟩

/-- C1 (amended): the dedup invariant holds for every criteria and table as
long as the literal-code match path never fires, i.e. no row's full PDB+chain
code occurs verbatim among the criteria strings.  Rows accepted by the
activation-state or conformation branches are guarded by `check_duplicates`,
so the candidate list then never contains two entries with the same
case-folded, chain-stripped PDB id. -/
theorem C1_dedup_nonliteral (templates : List Crit) (G : String → GpcrdbResp)
    (K : String → KlifsResp) (table : List String)
    (hlit : ∀ pdb ∈ table, rawStrMem templates pdb = false)
    (ps ds : List String)
    (h : process_templates templates G K table = Except.ok (ps, ds)) :
    (ps.map normId).Nodup := by
  have hinv := processRows_inv hlit ⟨rfl, List.nodup_nil⟩ h
  have h1 : ds = ps.map normId := hinv.1
  have h2 := hinv.2
  rw [h1] at h2
  exact h2

/-- Witness for `C1_dedup_nonliteral` at a concrete table, criteria and
oracles. -/
theorem C1_dedup_nonliteral_witness :
    (∀ pdb ∈ (["1abc_A", "1abc_B"] : List String),
        rawStrMem [Crit.tup "all" "all" "all"] pdb = false) ∧
      (((["1abc_A"] : List String).map normId).Nodup) :=
  ⟨by decide, C1_dedup_nonliteral [Crit.tup "all" "all" "all"] gpcrdbNone
    klifsIn3 ["1abc_A", "1abc_B"] (by decide) ["1abc_A"] ["1ABC"] (by rfl)⟩

/-! ## Claim C2 -/

/-- C2: for a row whose PDB id resolves in the conformation service (the
KLIFS oracle answers a conformation record), not yet recorded as a duplicate
and not among the caller's literal exclusion strings, the row processed under
a valid conformation criteria 3-tuple is accepted if and only if every
criteria field that is not "all" equals the corresponding observed value,
where the observed salt-bridge classification is "yes" exactly when the
returned distance lies in (0, 4.5] (`saltBridgeThreshold`) and "no"
otherwise.  In particular ("in","all","all") accepts exactly when observed
DFG is "in", and ("all","all","all") accepts every such row. -/
theorem C2_conformation_match (d a s : String) (rest : List Crit)
    (G : String → GpcrdbResp) (K : String → KlifsResp)
    (st : List String × List String) (pdb o1 o2 : String) (dist : ℚ)
    (hd : d ∈ (["in", "out", "out-like", "all"] : List String))
    (ha : a ∈ (["in", "out", "all"] : List String))
    (hs : s ∈ (["yes", "no", "all"] : List String))
    (hdup : normId pdb ∉ st.2)
    (hexc : rawStrMem (Crit.tup d a s :: rest) (normId pdb) = false)
    (hk : K (normId pdb) = KlifsResp.found o1 o2 dist) :
    step (Crit.tup d a s :: rest) G K st pdb =
      Except.ok
        (if (d = "all" ∨ o1 = d) ∧ (a = "all" ∨ o2 = a) ∧
            (s = "all" ∨
              s = (if 0 < dist ∧ dist ≤ saltBridgeThreshold then "yes" else "no"))
          then (st.1 ++ [pdb], st.2 ++ [normId pdb]) else st) := by
  simp only [step, isActivationCrit, Bool.false_eq_true, false_and, if_false]
  unfold stepConf
  rw [if_pos ⟨rfl, hdup, hexc⟩]
  simp only [critIdx]
  rw [checkDfg_valid hd, checkAcHelix_valid ha, checkSaltBridge_valid hs]
  simp only [conformationBranch]
  rw [hk]
  simp only [conformationAccept_eq]
  by_cases hc : (d = "all" ∨ o1 = d) ∧ (a = "all" ∨ o2 = a) ∧
      (s = "all" ∨ s = (if 0 < dist ∧ dist ≤ saltBridgeThreshold then "yes" else "no"))
  · rw [if_pos hc]
    simp [hc]
  · rw [if_neg hc]
    simp [hc]

/-- Witness for `C2_conformation_match`: criteria ("in","all","all") and an
observed DFG of "in" accept the row. -/
theorem C2_conformation_match_witness :
    step [Crit.tup "in" "all" "all"] gpcrdbNone klifsIn3 ([], []) "1abc_A" =
      Except.ok
        ((([], []) : List String × List String).1 ++ ["1abc_A"],
          (([], []) : List String × List String).2 ++ [normId "1abc_A"]) := by
  have h := C2_conformation_match "in" "all" "all" [] gpcrdbNone klifsIn3
    ([], []) "1abc_A" "in" "in" 3 (by decide) (by decide) (by decide)
    (by decide) (by decide) (by rfl)
  rwa [if_pos (by decide)] at h

/-! ## Claim C4 -/

/-- C4 is false as stated: an activation-state criteria value outside the
allowed enum (here "Hyperactive") raises no error at all — the activation
branch of line 277 simply never fires and the run succeeds with an empty
candidate list. -/
theorem C4_counterexample :
    ("Hyperactive" ∉ activationStates) ∧
      process_templates [Crit.str "Hyperactive"] gpcrdbNone klifsNone
        ["1abc_A"] = Except.ok ([], []) :=
  ⟨by decide, by rfl⟩

/-- C4 (amended): only the conformation-tuple criteria fields are validated.
For a conformation 3-tuple with an invalid DFG, αC-helix, or salt-bridge
field, `process_templates` raises `RuntimeError` as soon as a table row
reaches the conformation branch (here: the first row, duplicate and exclusion
guards being vacuous), with the field checked in the order DFG, αC-helix,
salt-bridge.  An activation-state criteria string outside its enum raises no
error (provided its length is not 3, which would route it into the
conformation branch): the run always succeeds. -/
theorem C4_enum_errors (d a s : String) (G : String → GpcrdbResp)
    (K : String → KlifsResp) (pdb : String) (rest : List String) :
    (d ∉ (["in", "out", "out-like", "all"] : List String) →
      process_templates [Crit.tup d a s] G K (pdb :: rest) =
        Except.error "DFG value invalid") ∧
    (d ∈ (["in", "out", "out-like", "all"] : List String) →
      a ∉ (["in", "out", "all"] : List String) →
      process_templates [Crit.tup d a s] G K (pdb :: rest) =
        Except.error "ac_helix value invalid") ∧
    (d ∈ (["in", "out", "out-like", "all"] : List String) →
      a ∈ (["in", "out", "all"] : List String) →
      s ∉ (["yes", "no", "all"] : List String) →
      process_templates [Crit.tup d a s] G K (pdb :: rest) =
        Except.error "salt_bridge value invalid") ∧
    (∀ v : String, v ∉ activationStates → v.length ≠ 3 →
      ∀ table : List String,
        ∃ out, process_templates [Crit.str v] G K table = Except.ok out) := by
  refine ⟨?_, ?_, ?_, ?_⟩
  · intro hd
    simp only [process_templates, processRows, step, isActivationCrit,
      Bool.false_eq_true, false_and, if_false]
    unfold stepConf
    rw [if_pos ⟨rfl, List.not_mem_nil _, rfl⟩]
    simp only [critIdx]
    rw [checkDfg_invalid hd]
  · intro hd ha
    simp only [process_templates, processRows, step, isActivationCrit,
      Bool.false_eq_true, false_and, if_false]
    unfold stepConf
    rw [if_pos ⟨rfl, List.not_mem_nil _, rfl⟩]
    simp only [critIdx]
    rw [checkDfg_valid hd, checkAcHelix_invalid ha]
  · intro hd ha hs
    simp only [process_templates, processRows, step, isActivationCrit,
      Bool.false_eq_true, false_and, if_false]
    unfold stepConf
    rw [if_pos ⟨rfl, List.not_mem_nil _, rfl⟩]
    simp only [critIdx]
    rw [checkDfg_valid hd, checkAcHelix_valid ha, checkSaltBridge_invalid hs]
  · intro v _ h3 table
    exact processRows_ok_of_len_ne (by simpa [critLen] using h3) table ([], [])

/-- Witness for `C4_enum_errors`: an invalid DFG value aborts the run with
the `RuntimeError` of line 296. -/
theorem C4_enum_errors_witness :
    ("bogus" ∉ (["in", "out", "out-like", "all"] : List String)) ∧
      process_templates [Crit.tup "bogus" "all" "all"] gpcrdbNone klifsNone
        ["1abc_A"] = Except.error "DFG value invalid" :=
  ⟨by decide, (C4_enum_errors "bogus" "all" "all" gpcrdbNone klifsNone
    "1abc_A" []).1 (by decide)⟩

/-! ## Claims C3, C7, C10 (`download_templates`) -/

theorem download_templates_callerPdbs (shuf : List String → List String)
    (shuffling : Bool) (n : Nat) (job : String) (d : Bool)
    (pdbs : List String) :
    (download_templates shuf shuffling n job d pdbs).callerPdbs =
      if pdbs.length > 1 ∧ shuffling = true then shuf pdbs else pdbs := by
  unfold download_templates
  by_cases h0 : pdbs.length = 0
  · have h1 : ¬ (pdbs.length > 1 ∧ shuffling = true) := by
      intro hc
      omega
    rw [if_pos h0, if_neg h1]
  · rw [if_neg h0]

theorem download_templates_requested (shuf : List String → List String)
    (shuffling : Bool) (n : Nat) (job : String) (d : Bool)
    (pdbs : List String) (hne : pdbs ≠ []) :
    (download_templates shuf shuffling n job d pdbs).requested =
      (if pdbs.length > 1 ∧ shuffling = true then shuf pdbs else pdbs).take n := by
  unfold download_templates
  rw [if_neg (by simpa using hne)]

/-- C3 is false as stated: with shuffling enabled and at least two
candidates, `random.shuffle(pdbs)` (line 380) permutes the caller's list in
place.  For a run whose shuffle outcome is the reversal — a permutation
`random.shuffle` can produce — the caller's list is reordered after the
call. -/
theorem C3_counterexample :
    ((List.reverse ["1ABC_A", "2DEF_B"]).Perm ["1ABC_A", "2DEF_B"]) ∧
      (download_templates List.reverse true 20 "job" false
          ["1ABC_A", "2DEF_B"]).callerPdbs = ["2DEF_B", "1ABC_A"] ∧
      (["2DEF_B", "1ABC_A"] : List String) ≠ ["1ABC_A", "2DEF_B"] :=
  ⟨by decide, by rfl, by decide⟩

/-- C3 (amended): `download_templates` never adds or removes elements of the
caller's candidate list — after the call it is a permutation of its previous
value — and it holds the same elements in the same order whenever shuffling
is disabled or the list has fewer than two entries.  When shuffling is
enabled on two or more candidates, the shuffle acts in place on the caller's
list, which may therefore be reordered (`C3_counterexample`); truncation
acts on a local rebinding only. -/
theorem C3_fetch_permutes (shuf : List String → List String)
    (shuffling : Bool) (n : Nat) (job : String) (d : Bool)
    (pdbs : List String) (hperm : (shuf pdbs).Perm pdbs) :
    ((download_templates shuf shuffling n job d pdbs).callerPdbs).Perm pdbs ∧
      (shuffling = false ∨ pdbs.length ≤ 1 →
        (download_templates shuf shuffling n job d pdbs).callerPdbs = pdbs) := by
  rw [download_templates_callerPdbs]
  constructor
  · by_cases hsh : pdbs.length > 1 ∧ shuffling = true
    · rw [if_pos hsh]
      exact hperm
    · rw [if_neg hsh]
  · intro hc
    have h1 : ¬ (pdbs.length > 1 ∧ shuffling = true) := by
      rcases hc with hc | hc
      · intro h2
        rw [hc] at h2
        exact Bool.false_ne_true h2.2
      · intro h2
        omega
    rw [if_neg h1]

/-- Witness for `C3_fetch_permutes` with the identity shuffle and shuffling
disabled. -/
theorem C3_fetch_permutes_witness :
    ((download_templates id false 20 "job" false
        ["1ABC_A", "2DEF_B"]).callerPdbs).Perm ["1ABC_A", "2DEF_B"] ∧
      (download_templates id false 20 "job" false
        ["1ABC_A", "2DEF_B"]).callerPdbs = ["1ABC_A", "2DEF_B"] := by
  have h := C3_fetch_permutes id false 20 "job" false ["1ABC_A", "2DEF_B"]
    (List.Perm.refl _)
  exact ⟨h.1, h.2 (Or.inl rfl)⟩

/-- C7: on a non-empty candidate list the single bundle request contains
exactly `min n pdbs.length` codes — the first `n_templates` entries after the
optional shuffle — each drawn from the input list, with no code introduced
and none repeated beyond its multiplicity in the input. -/
theorem C7_truncate_bound (shuf : List String → List String)
    (shuffling : Bool) (n : Nat) (job : String) (d : Bool)
    (pdbs : List String) (hne : pdbs ≠ []) (hperm : (shuf pdbs).Perm pdbs) :
    (download_templates shuf shuffling n job d pdbs).requested.length =
        min n pdbs.length ∧
      ∀ c, (download_templates shuf shuffling n job d pdbs).requested.count c ≤
        pdbs.count c := by
  rw [download_templates_requested shuf shuffling n job d pdbs hne]
  have hp : (if pdbs.length > 1 ∧ shuffling = true then shuf pdbs else pdbs).Perm pdbs := by
    by_cases hsh : pdbs.length > 1 ∧ shuffling = true
    · rw [if_pos hsh]
      exact hperm
    · rw [if_neg hsh]
  constructor
  · rw [List.length_take, hp.length_eq]
  · intro c
    exact le_trans ((List.take_sublist n _).count_le c) (le_of_eq (hp.count_eq c))

/-- Witness for `C7_truncate_bound`: limit 3 on 4 candidates requests
exactly 3 of them. -/
theorem C7_truncate_bound_witness :
    (download_templates id true 3 "job" false
        ["A", "B", "C", "D"]).requested.length =
        min 3 (["A", "B", "C", "D"] : List String).length ∧
      ∀ c, (download_templates id true 3 "job" false
          ["A", "B", "C", "D"]).requested.count c ≤
        (["A", "B", "C", "D"] : List String).count c :=
  C7_truncate_bound id true 3 "job" false ["A", "B", "C", "D"] (by decide)
    (List.Perm.refl _)

/-- C10: called with an empty candidate list, `download_templates` emits the
"No templates found." warning, returns the empty string and performs no
bundle request; the `templates_101` directory does not exist afterwards —
any pre-existing bundle directory was removed first (lines 369-370) and no
new one is created. -/
theorem C10_empty_candidates (shuf : List String → List String)
    (shuffling : Bool) (n : Nat) (job : String) (dirExists : Bool) :
    download_templates shuf shuffling n job dirExists [] =
      ⟨"", [], false, [], true⟩ := by
  rfl

/-! ## Claim C5 -/

/-- C5: when the archive `out.tar.gz` already exists on disk,
`_search_mmseqs2` returns immediately without performing any network call:
no submit POST, no status poll and no download GET occur, for every step
budget and every behavior of the server. -/
theorem C5_idempotent_skip (fuel : Nat) (submits : Nat → Option ApiOut)
    (statuses : Nat → String → Option ApiOut) :
    search_mmseqs2 fuel true submits statuses = Except.ok [] := by
  rfl

/-! ## Claim C6 -/

/-- C6 names a real bug: `_submit` and `_status` indeed absorb a JSON parse
failure into the result `{"status": "UNKNOWN"}` without raising (first two
conjuncts), but that result carries no `"id"` key, so when a *status poll*
response fails to parse, the poll loop's retry `self._status(out["id"])`
(line 225) raises `KeyError` and the job fails instead of being retried:
after a successful submit (status RUNNING, id "abc"), a single unparseable
status response crashes the run. -/
theorem C6_unknown_keyerror :
    submitModel none = ⟨"UNKNOWN", none⟩ ∧
      statusModel none = ⟨"UNKNOWN", none⟩ ∧
      search_mmseqs2 3 false (fun _ => some ⟨"RUNNING", some "abc"⟩)
        (fun _ _ => none) = Except.error SearchErr.keyError :=
  ⟨rfl, rfl, by rfl⟩

/-! ## Claim C8 -/

theorem pySplitAux_append_comma :
    ∀ (p acc rest : List Char), ',' ∉ p →
      pySplitAux (p ++ ',' :: rest) acc =
        (acc.reverse ++ p) :: pySplitAux rest [] := by
  intro p
  induction p with
  | nil =>
    intro acc rest _
    simp [pySplitAux]
  | cons c cs ih =>
    intro acc rest hp
    have hc : ¬ (c = ',') := by
      intro h
      exact hp (by rw [h]; exact List.mem_cons_self _ _)
    have hcs : ',' ∉ cs := fun h => hp (List.mem_cons_of_mem _ h)
    simp only [List.cons_append, pySplitAux, if_neg hc, List.append_eq]
    rw [ih (c :: acc) rest hcs]
    simp

theorem sidecarWrite_foldl (a : List Char) (l : List (List Char)) :
    l.foldl (fun acc p => acc ++ p ++ [',']) a =
      a ++ l.foldl (fun acc p => acc ++ p ++ [',']) [] := by
  induction l generalizing a with
  | nil => simp
  | cons p tl ih =>
    simp only [List.foldl_cons]
    rw [ih (a ++ p ++ [',']), ih ([] ++ p ++ [','])]
    simp

theorem sidecarWrite_cons (p : List Char) (pdbs : List (List Char)) :
    sidecarWrite (p :: pdbs) = p ++ ',' :: sidecarWrite pdbs := by
  unfold sidecarWrite
  simp only [List.foldl_cons]
  rw [sidecarWrite_foldl]
  simp

theorem pySplitComma_sidecarWrite (pdbs : List (List Char))
    (h : ∀ p ∈ pdbs, ',' ∉ p) :
    pySplitComma (sidecarWrite pdbs) = pdbs ++ [[]] := by
  induction pdbs with
  | nil => rfl
  | cons p tl ih =>
    rw [sidecarWrite_cons]
    unfold pySplitComma
    rw [pySplitAux_append_comma p [] (sidecarWrite tl)
      (h p (List.mem_cons_self _ _))]
    simp only [List.reverse_nil, List.nil_append, List.cons_append]
    rw [show pySplitAux (sidecarWrite tl) [] = pySplitComma (sidecarWrite tl) from rfl]
    rw [ih (fun q hq => h q (List.mem_cons_of_mem _ hq))]

/-- C8: round-trip of the sidecar persistence.  For every ordered list of
non-empty, comma-free candidate codes, writing the list as the comma-joined
string with trailing separator (`process_templates`, lines 359-361) and
reading it back (`shuffle_templates`, lines 462-467: split on ',' and
discard the trailing empty element) recovers exactly the original ordered
list — the pre-shuffle, pre-truncation candidate order. -/
theorem C8_sidecar_roundtrip (pdbs : List (List Char))
    (h : ∀ p ∈ pdbs, p ≠ [] ∧ ',' ∉ p) :
    sidecarRead (sidecarWrite pdbs) = pdbs := by
  have hs : pySplitComma (sidecarWrite pdbs) = pdbs ++ [[]] :=
    pySplitComma_sidecarWrite pdbs (fun p hp => (h p hp).2)
  unfold sidecarRead
  rw [hs, if_pos (by simp)]
  simp

/-- Witness for `C8_sidecar_roundtrip` on two concrete codes. -/
theorem C8_sidecar_roundtrip_witness :
    (∀ p ∈ ([['1', 'A', 'B', 'C', '_', 'A'], ['2', 'X', 'Y', 'Z', '_', 'B']] :
        List (List Char)), p ≠ [] ∧ ',' ∉ p) ∧
      sidecarRead (sidecarWrite
          [['1', 'A', 'B', 'C', '_', 'A'], ['2', 'X', 'Y', 'Z', '_', 'B']]) =
        [['1', 'A', 'B', 'C', '_', 'A'], ['2', 'X', 'Y', 'Z', '_', 'B']] :=
  ⟨by decide, C8_sidecar_roundtrip
    [['1', 'A', 'B', 'C', '_', 'A'], ['2', 'X', 'Y', 'Z', '_', 'B']] (by decide)⟩

/-! ## Claim C9 -/

/-- C9: for every input string, `_cleanseq` applied to the upper-cased input
(as the constructor does, line 65) returns a sequence containing only
uppercase letters A-Z with none of B, J, O, U, X, Z among them; and the
non-canonical-letter warning is emitted exactly when the upper-cased input
contains one of B/J/O/U/X/Z (in particular, whenever it does). -/
theorem C9_cleanseq_sound (s : String) :
    (∀ c ∈ (cleanseqUpper s).1.toList, ('A' ≤ c ∧ c ≤ 'Z') ∧ c ∉ bjouxz) ∧
      (cleanseqUpper s).2 =
        (pyUpper s).toList.any (fun c => decide (c ∈ bjouxz)) := by
  refine ⟨?_, rfl⟩
  intro c hc
  unfold cleanseqUpper cleanseq at hc
  simp only [String.toList] at hc
  by_cases hw : (pyUpper s).data.any (fun c => decide (c ∈ bjouxz)) = true
  · rw [if_pos hw] at hc
    simp only [List.mem_filter, decide_eq_true_eq] at hc
    exact ⟨hc.2, hc.1.1.2⟩
  · rw [if_neg hw] at hc
    simp only [List.mem_filter, decide_eq_true_eq] at hc
    refine ⟨hc.2, ?_⟩
    intro hmem
    simp only [Bool.not_eq_true] at hw
    have := List.any_eq_false.mp hw c hc.1.1
    simp [hmem] at this

/-- Witness for `C9_cleanseq_sound` on a concrete sequence containing
lowercase letters, a digit, whitespace and a non-canonical letter. -/
theorem C9_cleanseq_sound_witness :
    (('A' ≤ 'M' ∧ 'M' ≤ 'Z') ∧ 'M' ∉ bjouxz) ∧
      (cleanseqUpper "mkB v2").2 =
        (pyUpper "mkB v2").toList.any (fun c => decide (c ∈ bjouxz)) :=
  ⟨(C9_cleanseq_sound "mkB v2").1 'M' (by decide), (C9_cleanseq_sound "mkB v2").2⟩

end MMSeqs2
